import Mathlib

/-!
Verification of the live-slideshow presentation scheduler of this manim fork.

The development shallowly embeds the scheduler:
* `SceneState` / `animate_to_next_subslide` follow `src/manim/scene/slide_scene.py`
  (`SlideScene`): the presentation state machine driven by a resumable script
  generator that yields `SUBSLIDE` / `EXIT` tokens.
* `HostState` / `update_framerate_clock` / `update_with_rendered_frame` /
  `render_idle_frame` follow `src/manim/slides/slideshow_host.py` (`SlideshowHost`).
* `play_internal_trace` follows `SlideScene.play_internal`.
* `prerender_scene` models the prerender pass of `src/manim/slides/main.py`.

External collaborators (animation engine, rasterizer, display) are abstracted:
mobjects are opaque tokens (`Nat`), a frame is the list of mobjects composited
into it, wall-clock samples and input events are explicit arguments, and the
engine callbacks (`get_moving_and_static_mobjects`, `update_mobjects`) are
function parameters.
-/

namespace Slideshow

/-! ## Frames, mobjects and the renderer state

From `src/manim/renderer/slide_renderer.py`.  A mobject is an opaque token; a
frame records which mobjects were composited into it, with the background
(if any) first — this is all the structure the claims need from the rasterizer,
whose internals are an excluded collaborator. -/

abbrev Mobject := Nat

abbrev Frame := List Mobject

/-- Models `Camera.capture_mobjects` over either the static background
(`set_frame_to_background`) or a blank canvas (`camera.reset`). -/
def captureFrame (background : Option Frame) (mobjects : List Mobject) : Frame :=
  background.getD [] ++ mobjects

/-- The renderer-owned state shared by `DummySlideRenderer` and
`CairoLiveSlideshowRenderer`: the static background image and the camera's
current pixel array. -/
structure RendererState where
  static_image : Option Frame
  camera_pixels : Frame
deriving DecidableEq, Repr

/-- Models `update_frame(scene, mobjects)` (both renderers, `slide_renderer.py`): set
the camera background to `static_image` if present (else reset), then capture
the given mobjects.  All call sites modelled here use the default
`ignore_skipping=True`, so the skip guard never fires. -/
def update_frame (r : RendererState) (mobjects : List Mobject) : RendererState :=
  { r with camera_pixels := captureFrame r.static_image mobjects }

/-- Models `get_frame()`: a copy of the camera's pixel array. -/
def get_frame (r : RendererState) : Frame :=
  r.camera_pixels

/-- Models `save_static_frame_data(scene, static_mobjects)`: render the static
mobjects and store the result as the new static background. -/
def save_static_frame_data (r : RendererState) (static_mobjects : List Mobject) :
    RendererState :=
  let r2 := update_frame r static_mobjects
  { r2 with static_image := some (get_frame r2) }

/-! ## The presentation state machine

From `src/manim/scene/slide_scene.py`. -/

/-- Enum `PresentationState` (`slide_scene.py` lines 11-14). -/
inductive PresentationState
  | NOT_READY
  | ANIMATING
  | IDLE
deriving DecidableEq, Repr

/-- Enum `AnimationGroupEndAction` (`slide_scene.py` lines 16-18): the tokens a
script generator may yield (`subslide()` / `advance()`). -/
inductive AnimationGroupEndAction
  | SUBSLIDE
  | EXIT
deriving DecidableEq, Repr

/-- One resumable segment of a script: the animation-group frames the segment
renders when the generator is resumed, followed by the token it yields. -/
structure Segment where
  frames : Nat
  token : AnimationGroupEndAction
deriving DecidableEq, Repr

/-- A Python generator produced by calling `construct()`: the remaining
segments, the frames rendered by the code after the last `yield` (run on the
exhausting `next()`), and whether the generator has already raised
`StopIteration` (after which every further `next()` raises immediately). -/
structure Gen where
  segs : List Segment
  tailFrames : Nat
  exhausted : Bool
deriving DecidableEq, Repr

/-- Result of `next(gen)`. -/
inductive NextResult
  | yielded (tok : AnimationGroupEndAction)
  | stopIteration
deriving DecidableEq, Repr

/-- Models `next(self.anim_generator)`: returns the outcome, the number of
animation-group frames rendered while the generator body ran, and the new
generator state. -/
def genNext (g : Gen) : NextResult × Nat × Gen :=
  match g.segs with
  | [] =>
      if g.exhausted then (.stopIteration, 0, g)
      else (.stopIteration, g.tailFrames, { g with exhausted := true })
  | seg :: rest => (.yielded seg.token, seg.frames, { g with segs := rest })

/-- The `SlideScene` fields the scheduler reads and writes
(`slide_scene.py` lines 29-36 plus the mobject bookkeeping of
`animate_to_next_subslide`), with the scene's renderer folded in. -/
structure SceneState where
  is_skipping_to_end : Bool
  presentation_state : PresentationState
  is_at_end : Bool
  anim_generator : Gen
  mobjects : List Mobject
  moving_mobjects : List Mobject
  static_mobjects : List Mobject
  renderer : RendererState
deriving DecidableEq, Repr

/-- A fresh `SlideScene` as built by `__init__` (`slide_scene.py` lines 29-36),
with an empty scene graph and a fresh renderer. -/
def initial_scene : SceneState :=
  { is_skipping_to_end := false
    presentation_state := .NOT_READY
    is_at_end := false
    anim_generator := { segs := [], tailFrames := 0, exhausted := false }
    mobjects := []
    moving_mobjects := []
    static_mobjects := []
    renderer := { static_image := none, camera_pixels := [] } }

/-- A frame-production event: which call path produced a frame, tagged with the
scene's `presentation_state` at the moment of production. -/
inductive FrameEvent
  | animationFrame (state : PresentationState)
  | snapshotFrame (state : PresentationState)
  | idleFrame (state : PresentationState)
  | prerenderFrame (state : PresentationState)
deriving DecidableEq, Repr

/-- The presentation state attached to a frame-production event. -/
def FrameEvent.state : FrameEvent → PresentationState
  | .animationFrame st => st
  | .snapshotFrame st => st
  | .idleFrame st => st
  | .prerenderFrame st => st

/-- The script as authored: either a generator function, or a plain function
(no `yield`) whose body renders `bodyFrames` frames. -/
inductive Construct
  | generator (segs : List Segment) (tailFrames : Nat)
  | plain (bodyFrames : Nat)
deriving DecidableEq, Repr

/-- Calling `self.construct()` after the wrapping in `start_render`
(`slide_scene.py` lines 44-55).  A non-generator construct is wrapped in
`def _wrapper(self): return old_construct(); yield` — a generator that runs the
body once on the first `next()` and then raises `StopIteration` without ever
yielding. -/
def wrap_construct : Construct → Gen
  | .generator segs tailFrames => { segs := segs, tailFrames := tailFrames, exhausted := false }
  | .plain bodyFrames => { segs := [], tailFrames := bodyFrames, exhausted := false }

/-- Models `start_render` (`slide_scene.py` lines 38-56): wrap `construct` if needed,
create the generator, and move to `ANIMATING`.  (`setup()` belongs to the
excluded animation engine.) -/
def start_render (c : Construct) (s : SceneState) : SceneState :=
  { s with
    anim_generator := wrap_construct c
    presentation_state := .ANIMATING }

/-- The result of one `animate_to_next_subslide` call: its boolean return
value, the updated scene, and the frame-production events it caused. -/
structure AdvanceResult where
  ret : Bool
  scene : SceneState
  trace : List FrameEvent
deriving DecidableEq, Repr

/-- Lines 93-95 of `animate_to_next_subslide`: clear the fast-forward flag,
clear the renderer's static background, set the state to `ANIMATING`. -/
def animate_prep (s : SceneState) : SceneState :=
  { s with
    is_skipping_to_end := false
    renderer := { s.renderer with static_image := none }
    presentation_state := .ANIMATING }

/-- Lines 110-119 of `animate_to_next_subslide`: enter `IDLE`, run
`update_mobjects(dt=0)`, recompute the moving/static partition
(`get_moving_and_static_mobjects([])`) and rebuild the static snapshot.
`partition` and `updateMobs` are the animation-engine callbacks. -/
def animate_go_idle (partition : List Mobject → List Mobject × List Mobject)
    (updateMobs : List Mobject → List Mobject)
    (s : SceneState) (trace : List FrameEvent) : AdvanceResult :=
  let s1 := { s with presentation_state := PresentationState.IDLE }
  let s2 := { s1 with mobjects := updateMobs s1.mobjects }
  let p := partition s2.mobjects
  let s3 := { s2 with moving_mobjects := p.1, static_mobjects := p.2 }
  let s4 := { s3 with renderer := save_static_frame_data s3.renderer s3.static_mobjects }
  { ret := true
    scene := s4
    trace := trace ++ [FrameEvent.snapshotFrame s3.presentation_state] }

/-- Lines 97-119 of `animate_to_next_subslide`: resume the generator and act on
the outcome.  Frames rendered inside `next()` carry the scene's current
presentation state. -/
def animate_resume (partition : List Mobject → List Mobject × List Mobject)
    (updateMobs : List Mobject → List Mobject) (s : SceneState) : AdvanceResult :=
  let r := genNext s.anim_generator
  let trace := List.replicate r.2.1 (FrameEvent.animationFrame s.presentation_state)
  let s1 := { s with anim_generator := r.2.2 }
  match r.1 with
  | .stopIteration =>
      if s1.is_at_end then
        { ret := false, scene := s1, trace := trace }
      else
        animate_go_idle partition updateMobs { s1 with is_at_end := true } trace
  | .yielded tok =>
      if tok = AnimationGroupEndAction.EXIT then
        { ret := false, scene := s1, trace := trace }
      else
        animate_go_idle partition updateMobs s1 trace

/-- Models `animate_to_next_subslide` (`slide_scene.py` lines 81-119): the prep step
followed by resuming the script generator. -/
def animate_to_next_subslide (partition : List Mobject → List Mobject × List Mobject)
    (updateMobs : List Mobject → List Mobject) (s : SceneState) : AdvanceResult :=
  animate_resume partition updateMobs (animate_prep s)

/-- Models `skip_to_next_idle_phase` (`slide_scene.py` lines 162-168). -/
def skip_to_next_idle_phase (s : SceneState) : SceneState :=
  { s with is_skipping_to_end := true }

/-- Repeatedly call `animate_to_next_subslide`, counting how many calls return
`true` — each `true` return is one IDLE phase entered — until a call returns
`false` (or fuel runs out). -/
def count_idle_phases (partition : List Mobject → List Mobject × List Mobject)
    (updateMobs : List Mobject → List Mobject) : Nat → SceneState → Nat
  | 0, _ => 0
  | fuel + 1, s =>
      let r := animate_to_next_subslide partition updateMobs s
      if r.ret then count_idle_phases partition updateMobs fuel r.scene + 1 else 0

/-- The number of `SUBSLIDE` tokens a generator actually yields: tokens after
the first `EXIT` are never consumed. -/
def subslides_before_exit : List Segment → Nat
  | [] => 0
  | seg :: rest =>
      match seg.token with
      | .EXIT => 0
      | .SUBSLIDE => subslides_before_exit rest + 1

/-- Whether the script ever yields an explicit `EXIT` token. -/
def yields_exit : List Segment → Bool
  | [] => false
  | seg :: rest => seg.token = AnimationGroupEndAction.EXIT || yields_exit rest

/-! ## The playback loop

From `SlideScene.play_internal` (`slide_scene.py` lines 121-160).  Wall-clock
readings (`time.time() - t_0`) and the per-iteration value of
`renderer.skip_animations` (which can flip mid-loop when the host's event pump
runs inside `renderer.render`) are explicit input streams. -/

/-- Why the `while t < duration` loop of `play_internal` stopped. -/
inductive ExitReason
  | completed
  | stopped
  | skipped
  | starved
deriving DecidableEq, Repr

/-- One iteration's inputs to the playback loop: the wall-clock sample
`time.time() - t_0` and the observed value of `renderer.skip_animations`. -/
structure PlayStep where
  sample : ℚ
  skip_flag : Bool
deriving DecidableEq, Repr

/-- The `while t < duration` loop of `play_internal` (lines 141-151).  Returns
the sequence of `update_to_time` arguments and the reason the loop stopped
(`starved` is a model artifact: the finite clock stream ran out). -/
def play_loop (duration : ℚ) (stop_cond : Option (ℚ → Bool)) :
    List PlayStep → ℚ → List ℚ × ExitReason
  | [], t =>
      if duration ≤ t then ([], .completed) else ([], .starved)
  | st :: rest, t =>
      if duration ≤ t then ([], .completed)
      else
        if (stop_cond.map (fun c => c st.sample)).getD false then
          ([st.sample], .stopped)
        else if st.skip_flag then
          ([st.sample], .skipped)
        else
          let r := play_loop duration stop_cond rest st.sample
          (st.sample :: r.1, r.2)

/-- Models `play_internal` (lines 121-160): run the playback loop from `t = 0`; if it
was ended by the skip flag (`need_last_run`) and rendering was not skipped,
perform one final `update_to_time(duration)` before the animations are
finalized.  Returns the full sequence of `update_to_time` arguments and the
loop's exit reason. -/
def play_internal_trace (duration : ℚ) (skip_rendering : Bool)
    (stop_cond : Option (ℚ → Bool)) (steps : List PlayStep) : List ℚ × ExitReason :=
  let r := play_loop duration stop_cond steps 0
  if r.2 = ExitReason.skipped ∧ ¬skip_rendering then (r.1 ++ [duration], r.2)
  else r

/-! ## The slideshow host

From `src/manim/slides/slideshow_host.py`.  Wall-clock readings are passed in
(`now` at entry, `now2` for the `time.time()` call after the pacing delay);
the logical events produced by `sieve_events` are an input list. -/

/-- Enum `SlideshowEvent` (`slideshow_host.py` lines 15-18). -/
inductive SlideshowEvent
  | EXIT
  | ADVANCE
  | PREVIOUS
deriving DecidableEq, Repr

/-- The `SlideshowHost` fields the scheduler reads and writes
(`slideshow_host.py` lines 25-44), with the single active scene folded in. -/
structure HostState where
  current_slide_source : Option Nat
  last_frame_at : Option ℚ
  avg_fps : ℚ
  last_frame_data : Option Frame
  active_scene : SceneState
deriving DecidableEq, Repr

/-- A fresh `SlideshowHost` (`__init__`, lines 25-44) around a given scene. -/
def initial_host (s : SceneState) : HostState :=
  { current_slide_source := none
    last_frame_at := none
    avg_fps := 1
    last_frame_data := none
    active_scene := s }

/-- Models `update_framerate_clock` (`slideshow_host.py` lines 66-86).  `now` is the
`time.time()` sample on entry, `now2` the sample taken for the new
`last_frame_at` after the (possible) delay.  Returns the new host state, the
function's return value, and the argument of the `SDL_Delay` call in
milliseconds (`none` when no delay is inserted; Python's `int` truncates and
the offset is positive in that branch, so it is a floor). -/
def update_framerate_clock (frame_rate now now2 : ℚ) (h : HostState) :
    HostState × ℚ × Option ℤ :=
  match h.last_frame_at with
  | none => ({ h with last_frame_at := some now }, 0, none)
  | some last =>
      let avg := 0.1 * h.avg_fps + 0.9 * (1 / (now - last))
      let delay : Option ℤ :=
        if now - last < 1 / frame_rate then
          some ⌊(1 / frame_rate - (now - last)) * 1000⌋
        else none
      ({ h with avg_fps := avg, last_frame_at := some now2 }, now2 - last, delay)

/-- The event dispatch inside `update_with_rendered_frame` (lines 109-116):
`EXIT` during an animation is logged and ignored; `ADVANCE` sets the active
scene's fast-forward flag.  (`sieve_events` never yields `PREVIOUS`; an
unrecognized event falls through.) -/
def process_anim_event (h : HostState) (e : SlideshowEvent) : HostState :=
  match e with
  | .EXIT => h
  | .ADVANCE => { h with active_scene := skip_to_next_idle_phase h.active_scene }
  | .PREVIOUS => h

/-- Models `update_with_rendered_frame` (`slideshow_host.py` lines 88-123).
`source_id` is `id(slide_source)`.  Returns the new host state, the frames
blitted to the window, and the inserted pacing delay (ms). -/
def update_with_rendered_frame (frame_rate now now2 : ℚ)
    (events : List SlideshowEvent) (source_id : Nat) (frame : Frame)
    (h : HostState) : HostState × List Frame × Option ℤ :=
  if some source_id ≠ h.current_slide_source then (h, [], none)
  else
    let h1 := events.foldl process_anim_event h
    let r := update_framerate_clock frame_rate now now2 h1
    ({ r.1 with last_frame_data := none }, [frame], r.2.2)

/-- The result of one `render_idle_frame` call: the new host state, the frame
blitted to the window, and whether the renderer was asked for a new frame
(`update_frame` + `get_frame`). -/
structure IdleRenderResult where
  host : HostState
  blitted : Frame
  rasterized : Bool
deriving DecidableEq, Repr

/-- Models `render_idle_frame` (`slideshow_host.py` lines 130-151).  `should_update`
is the value of `active_scene.should_update_mobjects()` (an animation-engine
call); `updateMobsDt` is `update_mobjects(dt)`. -/
def render_idle_frame (frame_rate now now2 : ℚ) (should_update : Bool)
    (updateMobsDt : ℚ → List Mobject → List Mobject) (h : HostState) :
    IdleRenderResult :=
  if h.last_frame_data = none ∨ should_update then
    let r := update_framerate_clock frame_rate now now2 h
    let h1 := r.1
    let sc := h1.active_scene
    let sc1 := { sc with mobjects := updateMobsDt r.2.1 sc.mobjects }
    let sc2 := { sc1 with renderer := update_frame sc1.renderer sc1.moving_mobjects }
    let frame := get_frame sc2.renderer
    { host := { h1 with active_scene := sc2, last_frame_data := some frame }
      blitted := frame
      rasterized := true }
  else
    let h1 := (update_framerate_clock frame_rate now now2 h).1
    { host := h1
      blitted := h.last_frame_data.getD []
      rasterized := false }

/-! ## The prerender pass and the interactive run -/

/-- Modelled from the spec: the base-class `Scene.render` invoked by
`SlideScene.render` (`slide_scene.py` line 79) is not under `src/`; per spec
§4.3 the prerender pass drives the script to completion headlessly and
captures a final-frame thumbnail, which `DummySlideRenderer.scene_finished`
(`slide_renderer.py` lines 78-80, in `src/`) implements as
`update_frame(scene, ignore_skipping=True)` followed by `get_frame()`.
`SlideScene.render` itself (in `src/`) never touches `presentation_state`, so
the frame is produced at whatever state the scene is in.  In-animation frames
are suppressed (`play_internal(skip_rendering=True)`). -/
def prerender_scene (s : SceneState) : SceneState × List FrameEvent :=
  let s1 := { s with renderer := update_frame s.renderer s.mobjects }
  (s1, [FrameEvent.prerenderFrame s1.presentation_state])

/-- One iteration's inputs to the host's idle loop: the two clock samples for
`render_idle_frame`'s pacing call, the `should_update_mobjects()` answer, and
the logical events drained from the input sieve. -/
structure IdleInput where
  now : ℚ
  now2 : ℚ
  should_update : Bool
  events : List SlideshowEvent
deriving Repr

/-- The event dispatch of the idle loop (`run`, lines 199-212): `EXIT` ends the
host loop; `ADVANCE` calls `animate_to_next_subslide`, ending the loop when it
returns `false`.  Returns `none` when the loop terminated, together with the
frame events produced by the advances. -/
def process_idle_events (partition : List Mobject → List Mobject × List Mobject)
    (updateMobs : List Mobject → List Mobject) :
    List SlideshowEvent → HostState → Option HostState × List FrameEvent
  | [], h => (some h, [])
  | e :: rest, h =>
      match e with
      | .EXIT => (none, [])
      | .ADVANCE =>
          let r := animate_to_next_subslide partition updateMobs h.active_scene
          let h1 := { h with active_scene := r.scene }
          if r.ret then
            let rr := process_idle_events partition updateMobs rest h1
            (rr.1, r.trace ++ rr.2)
          else (none, r.trace)
      | .PREVIOUS => process_idle_events partition updateMobs rest h

/-- The `while True` idle loop of `run` (`slideshow_host.py` lines 187-212):
check the state is `IDLE` (else `exit(1)`), render an idle frame, drain the
sieve.  Returns the trace of frame-production events. -/
def host_idle_loop (frame_rate : ℚ)
    (partition : List Mobject → List Mobject × List Mobject)
    (updateMobs : List Mobject → List Mobject)
    (updateMobsDt : ℚ → List Mobject → List Mobject) :
    List IdleInput → HostState → List FrameEvent
  | [], _ => []
  | inp :: rest, h =>
      if h.active_scene.presentation_state ≠ PresentationState.IDLE then []
      else
        let r := render_idle_frame frame_rate inp.now inp.now2 inp.should_update updateMobsDt h
        let ev := if r.rasterized then
            [FrameEvent.idleFrame h.active_scene.presentation_state] else []
        match process_idle_events partition updateMobs inp.events r.host with
        | (none, tr) => ev ++ tr
        | (some h1, tr) =>
            ev ++ tr ++ host_idle_loop frame_rate partition updateMobs updateMobsDt rest h1

/-- Models `run` for the single active scene (`slideshow_host.py` lines 159-212):
`start_render`, one initial `animate_to_next_subslide` (returning `false` ends
the run), then the idle loop.  Returns the trace of frame-production events of
the whole interactive session. -/
def host_run (frame_rate : ℚ)
    (partition : List Mobject → List Mobject × List Mobject)
    (updateMobs : List Mobject → List Mobject)
    (updateMobsDt : ℚ → List Mobject → List Mobject)
    (inputs : List IdleInput) (c : Construct) (h : HostState) : List FrameEvent :=
  let h1 := { h with active_scene := start_render c h.active_scene }
  let r := animate_to_next_subslide partition updateMobs h1.active_scene
  let h2 := { h1 with active_scene := r.scene }
  if r.ret then
    r.trace ++ host_idle_loop frame_rate partition updateMobs updateMobsDt inputs h2
  else r.trace

/-! ## Helper lemmas -/

/-- Resuming a script whose next segment yields `SUBSLIDE` succeeds and only
pops that segment off the generator. -/
lemma animate_subslide_step (p : List Mobject → List Mobject × List Mobject)
    (u : List Mobject → List Mobject) (s : SceneState) (n : Nat) (rest : List Segment)
    (hg : s.anim_generator.segs = Segment.mk n AnimationGroupEndAction.SUBSLIDE :: rest) :
    (animate_to_next_subslide p u s).ret = true
    ∧ (animate_to_next_subslide p u s).scene.is_at_end = s.is_at_end
    ∧ (animate_to_next_subslide p u s).scene.anim_generator
        = { s.anim_generator with segs := rest } := by
  simp [animate_to_next_subslide, animate_resume, animate_prep, genNext,
    animate_go_idle, hg]

/-- Resuming a script whose next segment yields `EXIT` returns `false`. -/
lemma animate_exit_step (p : List Mobject → List Mobject × List Mobject)
    (u : List Mobject → List Mobject) (s : SceneState) (n : Nat) (rest : List Segment)
    (hg : s.anim_generator.segs = Segment.mk n AnimationGroupEndAction.EXIT :: rest) :
    (animate_to_next_subslide p u s).ret = false := by
  simp [animate_to_next_subslide, animate_resume, animate_prep, genNext, hg]

/-- The first exhaustion of the script is treated as an implicit `SUBSLIDE`:
the call succeeds and marks the end of the script. -/
lemma animate_exhaust_first (p : List Mobject → List Mobject × List Mobject)
    (u : List Mobject → List Mobject) (s : SceneState)
    (hg : s.anim_generator.segs = []) (hex : s.anim_generator.exhausted = false)
    (hae : s.is_at_end = false) :
    (animate_to_next_subslide p u s).ret = true
    ∧ (animate_to_next_subslide p u s).scene.is_at_end = true
    ∧ (animate_to_next_subslide p u s).scene.anim_generator
        = { s.anim_generator with exhausted := true } := by
  simp [animate_to_next_subslide, animate_resume, animate_prep, genNext,
    animate_go_idle, hg, hex, hae]

/-- Resuming an already-observed-exhausted script returns `false`. -/
lemma animate_exhaust_again (p : List Mobject → List Mobject × List Mobject)
    (u : List Mobject → List Mobject) (s : SceneState)
    (hg : s.anim_generator.segs = []) (hae : s.is_at_end = true) :
    (animate_to_next_subslide p u s).ret = false := by
  cases hex : s.anim_generator.exhausted <;>
    simp [animate_to_next_subslide, animate_resume, animate_prep, genNext, hg, hex, hae]

/-! ## Claims -/

/-- C1: `animate_to_next_subslide` first clears the fast-forward flag and the
renderer's static background and sets the presentation state to `ANIMATING`,
then resumes the script generator; it returns `true` exactly when a new IDLE
phase is ready (the generator yielded `SUBSLIDE`, or it was exhausted for the
first time) and `false` exactly when the presentation is over (the generator
yielded `EXIT`, or it was exhausted and a previous call had already observed
the exhaustion). -/
theorem c1_advance_subslide_contract
    (p : List Mobject → List Mobject × List Mobject)
    (u : List Mobject → List Mobject) (s : SceneState) :
    animate_to_next_subslide p u s = animate_resume p u (animate_prep s)
    ∧ (animate_prep s).is_skipping_to_end = false
    ∧ (animate_prep s).renderer.static_image = none
    ∧ (animate_prep s).presentation_state = PresentationState.ANIMATING
    ∧ ((animate_to_next_subslide p u s).ret = true ↔
        (∃ sg rest, s.anim_generator.segs = sg :: rest
            ∧ sg.token = AnimationGroupEndAction.SUBSLIDE)
        ∨ (s.anim_generator.segs = [] ∧ s.is_at_end = false))
    ∧ ((animate_to_next_subslide p u s).ret = false ↔
        (∃ sg rest, s.anim_generator.segs = sg :: rest
            ∧ sg.token = AnimationGroupEndAction.EXIT)
        ∨ (s.anim_generator.segs = [] ∧ s.is_at_end = true)) := by
  refine ⟨rfl, rfl, rfl, rfl, ?_, ?_⟩ <;>
  · rcases hg : s.anim_generator.segs with _ | ⟨⟨n, tok⟩, rest⟩
    · cases hae : s.is_at_end with
      | false =>
          cases hex : s.anim_generator.exhausted with
          | false => simp [(animate_exhaust_first p u s hg hex hae).1, hg, hae]
          | true =>
              simp [animate_to_next_subslide, animate_resume, animate_prep, genNext,
                animate_go_idle, hg, hex, hae]
      | true => simp [animate_exhaust_again p u s hg hae, hg, hae]
    · cases tok with
      | SUBSLIDE => simp [(animate_subslide_step p u s n rest hg).1, hg]
      | EXIT => simp [animate_exit_step p u s n rest hg, hg]

/-- C1 witness: the contract applied to a concrete scene whose generator's
next segment yields `SUBSLIDE`: the call returns `true`. -/
theorem c1_witness :
    (animate_to_next_subslide (fun l => ([], l)) id
        (start_render
          (Construct.generator [Segment.mk 2 AnimationGroupEndAction.SUBSLIDE] 1)
          initial_scene)).ret = true :=
  ((c1_advance_subslide_contract (fun l => ([], l)) id
      (start_render
        (Construct.generator [Segment.mk 2 AnimationGroupEndAction.SUBSLIDE] 1)
        initial_scene)).2.2.2.2.1).mpr
    (Or.inl ⟨Segment.mk 2 AnimationGroupEndAction.SUBSLIDE, [], rfl, rfl⟩)

/-- C10: whenever `animate_to_next_subslide` returns `false` the scene is left
in `ANIMATING` (there is no distinct terminal state and the scene is not
returned to `IDLE`); it returns `true` if and only if the scene is `IDLE` on
return, and in that case the static snapshot has been rebuilt (from the freshly
recomputed static set, over a blank background) and the moving/static sets have
been recomputed. -/
theorem c10_return_value_vs_state
    (p : List Mobject → List Mobject × List Mobject)
    (u : List Mobject → List Mobject) (s : SceneState) :
    ((animate_to_next_subslide p u s).ret = false →
      (animate_to_next_subslide p u s).scene.presentation_state
        = PresentationState.ANIMATING)
    ∧ ((animate_to_next_subslide p u s).ret = true ↔
      (animate_to_next_subslide p u s).scene.presentation_state
        = PresentationState.IDLE)
    ∧ ((animate_to_next_subslide p u s).ret = true →
        (animate_to_next_subslide p u s).scene.renderer.static_image
          = some (captureFrame none (p (u s.mobjects)).2)
        ∧ (animate_to_next_subslide p u s).scene.moving_mobjects = (p (u s.mobjects)).1
        ∧ (animate_to_next_subslide p u s).scene.static_mobjects = (p (u s.mobjects)).2) := by
  obtain ⟨sk, ps, ae, ⟨segs, tail, ex⟩, mo, mm, sm, rend⟩ := s
  rcases segs with _ | ⟨⟨n, tok⟩, rest⟩
  · cases ae <;> cases ex <;>
      simp [animate_to_next_subslide, animate_resume, animate_prep, genNext,
        animate_go_idle, save_static_frame_data, update_frame, get_frame]
  · cases tok <;>
      simp [animate_to_next_subslide, animate_resume, animate_prep, genNext,
        animate_go_idle, save_static_frame_data, update_frame, get_frame]

/-- Counting `true` returns of repeated `animate_to_next_subslide` calls, for
any scene holding a not-yet-exhausted generator and not yet at its end. -/
lemma count_idle_run (p : List Mobject → List Mobject × List Mobject)
    (u : List Mobject → List Mobject) :
    ∀ (segs : List Segment) (fuel tail : Nat) (s : SceneState),
      s.is_at_end = false → s.anim_generator = { segs := segs, tailFrames := tail, exhausted := false } →
      segs.length + 2 ≤ fuel →
      count_idle_phases p u fuel s
        = subslides_before_exit segs + (if yields_exit segs then 0 else 1) := by
  intro segs
  induction segs with
  | nil =>
      intro fuel tail s hae hg hf
      obtain ⟨f, rfl⟩ : ∃ f, fuel = f + 1 := ⟨fuel - 1, by omega⟩
      obtain ⟨f2, rfl⟩ : ∃ f2, f = f2 + 1 := ⟨f - 1, by omega⟩
      have h1 := animate_exhaust_first p u s (by rw [hg]) (by rw [hg]) hae
      rw [count_idle_phases, if_pos h1.1, count_idle_phases,
        if_neg (by
          rw [animate_exhaust_again p u (animate_to_next_subslide p u s).scene
            (by rw [h1.2.2, hg]) h1.2.1]
          exact Bool.false_ne_true)]
      simp [subslides_before_exit, yields_exit]
  | cons sg rest ih =>
      intro fuel tail s hae hg hf
      obtain ⟨f, rfl⟩ : ∃ f, fuel = f + 1 := ⟨fuel - 1, by omega⟩
      obtain ⟨n, tok⟩ := sg
      cases tok with
      | EXIT =>
          rw [count_idle_phases,
            if_neg (by
              rw [animate_exit_step p u s n rest (by rw [hg])]
              exact Bool.false_ne_true)]
          simp [subslides_before_exit, yields_exit]
      | SUBSLIDE =>
          have h1 := animate_subslide_step p u s n rest (by rw [hg])
          have h2 : count_idle_phases p u f (animate_to_next_subslide p u s).scene
              = subslides_before_exit rest + (if yields_exit rest then 0 else 1) := by
            refine ih f tail _ (by rw [h1.2.1, hae]) ?_ (by simp at hf ⊢; omega)
            rw [h1.2.2, hg]
          rw [count_idle_phases, if_pos h1.1, h2]
          simp [subslides_before_exit, yields_exit]
          omega

/-- C2: running a script to completion through repeated
`animate_to_next_subslide` calls, the number of IDLE phases entered equals the
number of `SUBSLIDE` boundaries the generator yields plus one implicit closing
phase (the first exhaustion is treated as one implicit continue); if the
generator explicitly yields `EXIT`, no closing IDLE phase is added and the call
in which `EXIT` is yielded returns `false`. -/
theorem c2_idle_phase_count (p : List Mobject → List Mobject × List Mobject)
    (u : List Mobject → List Mobject) (segs : List Segment) (tail fuel : Nat)
    (hf : segs.length + 2 ≤ fuel) :
    count_idle_phases p u fuel (start_render (Construct.generator segs tail) initial_scene)
      = subslides_before_exit segs + (if yields_exit segs then 0 else 1)
    ∧ ∀ (s : SceneState) (n : Nat) (rest : List Segment),
        s.anim_generator.segs = Segment.mk n AnimationGroupEndAction.EXIT :: rest →
        (animate_to_next_subslide p u s).ret = false := by
  constructor
  · exact count_idle_run p u segs fuel tail _ rfl rfl hf
  · intro s n rest hg
    exact animate_exit_step p u s n rest hg

/-- C2 witness: a concrete two-subslide script enters three IDLE phases
(two explicit boundaries plus the implicit closing phase). -/
theorem c2_witness :
    count_idle_phases (fun l => ([], l)) id 5
        (start_render
          (Construct.generator
            [Segment.mk 1 AnimationGroupEndAction.SUBSLIDE,
             Segment.mk 1 AnimationGroupEndAction.SUBSLIDE] 0) initial_scene)
      = subslides_before_exit
          [Segment.mk 1 AnimationGroupEndAction.SUBSLIDE,
           Segment.mk 1 AnimationGroupEndAction.SUBSLIDE]
        + (if yields_exit
            [Segment.mk 1 AnimationGroupEndAction.SUBSLIDE,
             Segment.mk 1 AnimationGroupEndAction.SUBSLIDE] then 0 else 1) :=
  (c2_idle_phase_count (fun l => ([], l)) id _ 0 5 (by decide)).1

/-- C3 counterexample: for a scene whose construct is not a generator, the
claim predicts that the first `animate_to_next_subslide` call after the
implicit group returns `false` with no closing IDLE phase; on the code the
first call returns `true` and enters a closing IDLE phase. -/
theorem c3_counterexample :
    (animate_to_next_subslide (fun l => ([], l)) id
        (start_render (Construct.plain 2) initial_scene)).ret = true
    ∧ (animate_to_next_subslide (fun l => ([], l)) id
        (start_render (Construct.plain 2) initial_scene)).scene.presentation_state
        = PresentationState.IDLE := by
  decide

/-- C3 (amended): `start_render` wraps a non-generator construct into a
generator that runs the body once and never yields, so the script is treated as
a single implicit animation group ending in exhaustion (an implicit
`SUBSLIDE`, not `EXIT`): the first `animate_to_next_subslide` call runs the
construct body, returns `true` and produces the closing IDLE phase, and the
second call returns `false`. -/
theorem c3_wrapped_construct (p : List Mobject → List Mobject × List Mobject)
    (u : List Mobject → List Mobject) (n : Nat) (s : SceneState)
    (hae : s.is_at_end = false) :
    (start_render (Construct.plain n) s).anim_generator
      = { segs := [], tailFrames := n, exhausted := false }
    ∧ (animate_to_next_subslide p u (start_render (Construct.plain n) s)).ret = true
    ∧ (animate_to_next_subslide p u (start_render (Construct.plain n) s)).scene.presentation_state
        = PresentationState.IDLE
    ∧ (animate_to_next_subslide p u (start_render (Construct.plain n) s)).trace
        = List.replicate n (FrameEvent.animationFrame PresentationState.ANIMATING)
          ++ [FrameEvent.snapshotFrame PresentationState.IDLE]
    ∧ (animate_to_next_subslide p u
        (animate_to_next_subslide p u (start_render (Construct.plain n) s)).scene).ret
        = false := by
  refine ⟨rfl, ?_, ?_, ?_, ?_⟩ <;>
    obtain ⟨sk, ps, ae, g, mo, mm, sm, rend⟩ := s <;>
    simp at hae <;> subst hae <;>
    simp [animate_to_next_subslide, animate_resume, animate_prep, genNext,
      animate_go_idle, start_render, wrap_construct, save_static_frame_data,
      update_frame, get_frame]

/-- C3 witness: the amended behavior on a concrete non-generator construct. -/
theorem c3_witness :
    (animate_to_next_subslide (fun l => ([], l)) id
        (start_render (Construct.plain 3) initial_scene)).ret = true
    ∧ (animate_to_next_subslide (fun l => ([], l)) id
        (animate_to_next_subslide (fun l => ([], l)) id
          (start_render (Construct.plain 3) initial_scene)).scene).ret = false :=
  ⟨(c3_wrapped_construct (fun l => ([], l)) id 3 initial_scene rfl).2.1,
   (c3_wrapped_construct (fun l => ([], l)) id 3 initial_scene rfl).2.2.2.2⟩

/-- C4 counterexample: with `avg_fps = 1`, `last = 0`, `now = 1/2` (so the
instantaneous sample `1/e = 2`), the code computes `0.1*1 + 0.9*2 = 1.9`, not
the claimed `0.1*2 + 0.9*1 = 1.1`. -/
theorem c4_counterexample :
    (update_framerate_clock 60 (1/2) 1
        { current_slide_source := none, last_frame_at := some 0, avg_fps := 1,
          last_frame_data := none, active_scene := initial_scene }).1.avg_fps
      ≠ 0.1 * (1 / ((1:ℚ)/2 - 0)) + 0.9 * 1 := by
  norm_num [update_framerate_clock]

/-- C4 (amended): on every non-first call to `update_framerate_clock` with
elapsed time `e = now - lastFrameAt`, the smoothed frames-per-second estimate
is updated by the exponential moving average `avg' = 0.1 * avg + 0.9 * (1/e)`,
i.e. weight 0.9 on the new inverted-elapsed sample and 0.1 on the old
estimate. -/
theorem c4_fps_ema (frame_rate now now2 : ℚ) (h : HostState) (last : ℚ)
    (hl : h.last_frame_at = some last) :
    (update_framerate_clock frame_rate now now2 h).1.avg_fps
      = 0.1 * h.avg_fps + 0.9 * (1 / (now - last)) := by
  simp [update_framerate_clock, hl]

/-- C4 witness: the amended update formula at a concrete non-first call. -/
theorem c4_witness :
    (update_framerate_clock 60 (1/2) 1
        { current_slide_source := none, last_frame_at := some 0, avg_fps := 1,
          last_frame_data := none, active_scene := initial_scene }).1.avg_fps
      = 0.1 * 1 + 0.9 * (1 / ((1:ℚ)/2 - 0)) :=
  c4_fps_ema 60 (1/2) 1
    { current_slide_source := none, last_frame_at := some 0, avg_fps := 1,
      last_frame_data := none, active_scene := initial_scene } 0 rfl

/-- C7: `update_framerate_clock` never inserts a negative or unbounded delay:
on its first call it only records the current time and returns 0 with no
delay; on every later call a delay is inserted exactly when the elapsed time
since the previous call is strictly less than the target frame period
`1/frame_rate`, and the inserted delay is the nonnegative remainder of that
period, truncated to whole milliseconds (so it never exceeds the
remainder). -/
theorem c7_pacing_delay_safe (frame_rate now now2 : ℚ) (h : HostState) :
    (h.last_frame_at = none →
      update_framerate_clock frame_rate now now2 h
        = ({ h with last_frame_at := some now }, 0, none))
    ∧ ∀ last, h.last_frame_at = some last →
        (((update_framerate_clock frame_rate now now2 h).2.2 ≠ none)
          ↔ now - last < 1 / frame_rate)
        ∧ ∀ d : ℤ, (update_framerate_clock frame_rate now now2 h).2.2 = some d →
            d = ⌊(1 / frame_rate - (now - last)) * 1000⌋
            ∧ 0 ≤ d ∧ (d : ℚ) ≤ (1 / frame_rate - (now - last)) * 1000 := by
  constructor
  · intro hl
    simp [update_framerate_clock, hl]
  · intro last hl
    constructor
    · by_cases hlt : now - last < 1 / frame_rate <;>
        simp [update_framerate_clock, hl, hlt]
    · intro d hd
      simp [update_framerate_clock, hl] at hd
      obtain ⟨hlt, rfl⟩ := hd
      have h0 : (0:ℚ) ≤ frame_rate⁻¹ - (now - last) := by linarith
      refine ⟨by rw [one_div], ?_, ?_⟩
      · exact Int.le_floor.mpr (by simpa using mul_nonneg h0 (by norm_num : (0:ℚ) ≤ 1000))
      · rw [one_div]
        exact Int.floor_le _

/-- C7 witness: at a concrete non-first call with elapsed `1/120` of a second
against a 60 fps target, the inserted delay is `⌊1000/120⌋ = 8` ms, which is
nonnegative and below the exact remainder. -/
theorem c7_witness :
    (update_framerate_clock 60 (1/120) (1/60)
        { current_slide_source := none, last_frame_at := some 0, avg_fps := 1,
          last_frame_data := none, active_scene := initial_scene }).2.2 = some 8
    ∧ (0:ℤ) ≤ 8 ∧ ((8:ℤ) : ℚ) ≤ ((1:ℚ) / 60 - ((1:ℚ)/120 - 0)) * 1000 := by
  have hc := (c7_pacing_delay_safe 60 (1/120) (1/60)
      { current_slide_source := none, last_frame_at := some 0, avg_fps := 1,
        last_frame_data := none, active_scene := initial_scene }).2 0 rfl
  have hsome : (update_framerate_clock 60 (1/120) (1/60)
      { current_slide_source := none, last_frame_at := some 0, avg_fps := 1,
        last_frame_data := none, active_scene := initial_scene }).2.2 = some 8 := by
    norm_num [update_framerate_clock]
  have hd := hc.2 8 hsome
  exact ⟨hsome, hd.2.1, hd.2.2⟩

/-- C6: a frame delivered to `update_with_rendered_frame` by a slide source
that is not the host's current active source is discarded before any other
effect: the host state is unchanged (`last_frame_at`, `avg_fps`, the cached
frame and the active scene's fast-forward flag included), no events are
processed, no delay is inserted, and nothing is blitted to the window. -/
theorem c6_stale_frame_dropped (frame_rate now now2 : ℚ)
    (events : List SlideshowEvent) (source_id : Nat) (frame : Frame)
    (h : HostState) (hm : some source_id ≠ h.current_slide_source) :
    update_with_rendered_frame frame_rate now now2 events source_id frame h
      = (h, [], none) := by
  simp [update_with_rendered_frame, hm]

/-- C6 witness: a concrete stale delivery (the host has no current source) is
dropped with no effect. -/
theorem c6_witness :
    update_with_rendered_frame 60 0 0 [SlideshowEvent.ADVANCE] 7 [1, 2]
        (initial_host initial_scene)
      = (initial_host initial_scene, [], none) :=
  c6_stale_frame_dropped 60 0 0 [SlideshowEvent.ADVANCE] 7 [1, 2]
    (initial_host initial_scene) (by decide)

/-- The pacing clock never touches the cached idle frame. -/
lemma clock_preserves_last_frame_data (frame_rate now now2 : ℚ) (h : HostState) :
    (update_framerate_clock frame_rate now now2 h).1.last_frame_data
      = h.last_frame_data := by
  cases hl : h.last_frame_at <;> simp [update_framerate_clock, hl]

/-- C8: calling `render_idle_frame` twice in succession, when after the first
call `last_frame_data` is non-null and the active scene's
`should_update_mobjects()` answers `false`, makes the second call blit the
exact same cached frame without calling the renderer's `update_frame` or
`get_frame`, and leave it cached. -/
theorem c8_idle_frame_idempotent (frame_rate now now2 now3 now4 : ℚ)
    (su1 : Bool) (u1 u2 : ℚ → List Mobject → List Mobject) (h : HostState)
    (f : Frame)
    (h1 : (render_idle_frame frame_rate now now2 su1 u1 h).host.last_frame_data = some f) :
    (render_idle_frame frame_rate now3 now4 false u2
        (render_idle_frame frame_rate now now2 su1 u1 h).host).blitted = f
    ∧ (render_idle_frame frame_rate now3 now4 false u2
        (render_idle_frame frame_rate now now2 su1 u1 h).host).rasterized = false
    ∧ (render_idle_frame frame_rate now3 now4 false u2
        (render_idle_frame frame_rate now now2 su1 u1 h).host).host.last_frame_data
        = some f := by
  have hcached : ∀ (a b : ℚ) (u : ℚ → List Mobject → List Mobject) (g : HostState),
      g.last_frame_data = some f →
      render_idle_frame frame_rate a b false u g
        = { host := (update_framerate_clock frame_rate a b g).1, blitted := f,
            rasterized := false } := by
    intro a b u g hg
    simp [render_idle_frame, hg]
  rw [hcached now3 now4 u2 _ h1]
  exact ⟨rfl, rfl, by rw [clock_preserves_last_frame_data, h1]⟩

/-- C8 witness: on a fresh host the first call rasterizes and caches a frame;
the second call (with no mobject update pending) reuses it without
rasterizing. -/
theorem c8_witness :
    (render_idle_frame 60 1 1 false (fun _ l => l)
        (render_idle_frame 60 0 0 true (fun _ l => l)
          (initial_host initial_scene)).host).rasterized = false :=
  (c8_idle_frame_idempotent 60 0 0 1 1 true (fun _ l => l) (fun _ l => l)
    (initial_host initial_scene) [] (by decide)).2.1

/-- When the playback loop ends with reason `skipped`, it stopped at the first
consumed step whose skip flag was observed `true`, having updated to each
consumed sample in order. -/
lemma play_loop_skipped (d : ℚ) (sc : Option (ℚ → Bool)) :
    ∀ (steps : List PlayStep) (t : ℚ),
      (play_loop d sc steps t).2 = ExitReason.skipped →
      ∃ pre st post, steps = pre ++ st :: post ∧ st.skip_flag = true ∧
        (play_loop d sc steps t).1 = pre.map PlayStep.sample ++ [st.sample] := by
  intro steps
  induction steps with
  | nil =>
      intro t h
      rw [play_loop] at h
      split_ifs at h
  | cons st rest ih =>
      intro t h
      rw [play_loop] at h ⊢
      split_ifs at h ⊢ with h1 h2 h3
      · exact ⟨[], st, rest, rfl, h3, by simp⟩
      · obtain ⟨pre, st1, post, hsteps, hflag, htr⟩ := ih st.sample (by simpa using h)
        exact ⟨st :: pre, st1, post, by simp [hsteps], hflag, by simp [htr]⟩

/-- C5: if the fast-forward flag is observed set during a playback loop in
`play_internal` (and rendering is not being skipped), the loop exits at the
first step where the flag is observed — before the group's nominal duration
elapses — but before the animations are finalized the object state is advanced
to exactly the group's full duration by a final `update_to_time(duration)`
call, never left at a partial time. -/
theorem c5_fast_forward_full_duration (d : ℚ) (sc : Option (ℚ → Bool))
    (steps : List PlayStep)
    (h : (play_internal_trace d false sc steps).2 = ExitReason.skipped) :
    (play_internal_trace d false sc steps).1.getLast? = some d
    ∧ ∃ pre st post, steps = pre ++ st :: post ∧ st.skip_flag = true ∧
        (play_internal_trace d false sc steps).1
          = pre.map PlayStep.sample ++ [st.sample, d] := by
  have hr : (play_loop d sc steps 0).2 = ExitReason.skipped := by
    by_cases hsk : (play_loop d sc steps 0).2 = ExitReason.skipped
    · exact hsk
    · simp only [play_internal_trace] at h
      rw [if_neg (by simp [hsk])] at h
      exact absurd h hsk
  obtain ⟨pre, st, post, hsteps, hflag, htr⟩ := play_loop_skipped d sc steps 0 hr
  have htrace : (play_internal_trace d false sc steps).1
      = pre.map PlayStep.sample ++ [st.sample, d] := by
    simp only [play_internal_trace]
    rw [if_pos ⟨hr, by simp⟩]
    simp [htr]
  refine ⟨?_, pre, st, post, hsteps, hflag, htrace⟩
  rw [htrace]
  have : pre.map PlayStep.sample ++ [st.sample, d]
      = (pre.map PlayStep.sample ++ [st.sample]) ++ [d] := by simp
  rw [this, List.getLast?_concat]

/-- C5 witness: a concrete group of duration 1 whose skip flag is observed at
the step sampled at time 1/2: the loop exits there and the final
`update_to_time` argument is the full duration 1. -/
theorem c5_witness :
    (play_internal_trace 1 false none [PlayStep.mk (1/2) true]).1.getLast? = some 1
    ∧ ∃ pre st post,
        [PlayStep.mk (1/2) true] = pre ++ st :: post ∧ st.skip_flag = true ∧
        (play_internal_trace 1 false none [PlayStep.mk (1/2) true]).1
          = pre.map PlayStep.sample ++ [st.sample, 1] :=
  c5_fast_forward_full_duration 1 none [PlayStep.mk (1/2) true] (by decide)

/-- The trace of `animate_to_next_subslide` is some animation-group frames
produced in `ANIMATING`, optionally followed by the static snapshot produced in
`IDLE`. -/
lemma animate_trace_shape (p : List Mobject → List Mobject × List Mobject)
    (u : List Mobject → List Mobject) (s : SceneState) :
    ∃ k, (animate_to_next_subslide p u s).trace
        = List.replicate k (FrameEvent.animationFrame PresentationState.ANIMATING)
      ∨ (animate_to_next_subslide p u s).trace
        = List.replicate k (FrameEvent.animationFrame PresentationState.ANIMATING)
          ++ [FrameEvent.snapshotFrame PresentationState.IDLE] := by
  obtain ⟨sk, ps, ae, ⟨segs, tail, ex⟩, mo, mm, sm, rend⟩ := s
  rcases segs with _ | ⟨⟨n, tok⟩, rest⟩
  · cases ae <;> cases ex
    · exact ⟨tail, Or.inr (by simp [animate_to_next_subslide, animate_resume,
        animate_prep, genNext, animate_go_idle])⟩
    · exact ⟨0, Or.inr (by simp [animate_to_next_subslide, animate_resume,
        animate_prep, genNext, animate_go_idle])⟩
    · exact ⟨tail, Or.inl (by simp [animate_to_next_subslide, animate_resume,
        animate_prep, genNext])⟩
    · exact ⟨0, Or.inl (by simp [animate_to_next_subslide, animate_resume,
        animate_prep, genNext])⟩
  · cases tok
    · exact ⟨n, Or.inr (by simp [animate_to_next_subslide, animate_resume,
        animate_prep, genNext, animate_go_idle])⟩
    · exact ⟨n, Or.inl (by simp [animate_to_next_subslide, animate_resume,
        animate_prep, genNext])⟩

/-- Every frame produced by `animate_to_next_subslide` is produced while the
scene is `ANIMATING` (frames of the resumed animation groups) or `IDLE` (the
rebuilt static snapshot). -/
lemma animate_trace_states (p : List Mobject → List Mobject × List Mobject)
    (u : List Mobject → List Mobject) (s : SceneState) :
    ∀ e ∈ (animate_to_next_subslide p u s).trace,
      e.state = PresentationState.ANIMATING ∨ e.state = PresentationState.IDLE := by
  intro e he
  obtain ⟨k, hk | hk⟩ := animate_trace_shape p u s
  · rw [hk] at he
    rw [List.eq_of_mem_replicate he]
    left
    rfl
  · rw [hk] at he
    rcases List.mem_append.mp he with he | he
    · rw [List.eq_of_mem_replicate he]
      left
      rfl
    · rw [List.mem_singleton.mp he]
      right
      rfl

/-- Every frame produced while the idle loop drains its events comes from an
`animate_to_next_subslide` call, hence from an `ANIMATING` or `IDLE` scene. -/
lemma process_idle_events_trace_states
    (p : List Mobject → List Mobject × List Mobject)
    (u : List Mobject → List Mobject) :
    ∀ (events : List SlideshowEvent) (h : HostState),
      ∀ e ∈ (process_idle_events p u events h).2,
        e.state = PresentationState.ANIMATING ∨ e.state = PresentationState.IDLE := by
  intro events
  induction events with
  | nil => intro h e he; simp [process_idle_events] at he
  | cons ev rest ih =>
      intro h e he
      cases ev with
      | EXIT => simp [process_idle_events] at he
      | PREVIOUS => exact ih h e (by simpa [process_idle_events] using he)
      | ADVANCE =>
          rw [process_idle_events] at he
          by_cases hr : (animate_to_next_subslide p u h.active_scene).ret
          · rw [if_pos hr] at he
            simp only [List.mem_append] at he
            rcases he with he | he
            · exact animate_trace_states p u h.active_scene e he
            · exact ih _ e he
          · rw [if_neg hr] at he
            exact animate_trace_states p u h.active_scene e he

/-- Every frame produced by the host's idle loop is produced while the scene is
`ANIMATING` or `IDLE`. -/
lemma host_idle_loop_trace_states (frame_rate : ℚ)
    (p : List Mobject → List Mobject × List Mobject)
    (u : List Mobject → List Mobject)
    (uDt : ℚ → List Mobject → List Mobject) :
    ∀ (inputs : List IdleInput) (h : HostState),
      ∀ e ∈ host_idle_loop frame_rate p u uDt inputs h,
        e.state = PresentationState.ANIMATING ∨ e.state = PresentationState.IDLE := by
  intro inputs
  induction inputs with
  | nil => intro h e he; simp [host_idle_loop] at he
  | cons inp rest ih =>
      intro h e he
      rw [host_idle_loop] at he
      by_cases hs : h.active_scene.presentation_state = PresentationState.IDLE
      · rw [if_neg (by simpa using hs)] at he
        have hidle : ∀ e0 ∈ (if (render_idle_frame frame_rate inp.now inp.now2
              inp.should_update uDt h).rasterized = true then
              [FrameEvent.idleFrame h.active_scene.presentation_state] else []),
            FrameEvent.state e0 = PresentationState.ANIMATING
              ∨ FrameEvent.state e0 = PresentationState.IDLE := by
          intro e0 he0
          split_ifs at he0 <;> simp at he0
          subst he0
          right
          simp [FrameEvent.state, hs]
        rcases hpe : process_idle_events p u inp.events
            (render_idle_frame frame_rate inp.now inp.now2 inp.should_update uDt h).host
          with ⟨o, tr⟩
        cases o with
        | none =>
            simp only [hpe] at he
            simp only [List.mem_append] at he
            rcases he with he | he
            · exact hidle e he
            · exact process_idle_events_trace_states p u inp.events _ e (by rw [hpe]; exact he)
        | some h1 =>
            simp only [hpe] at he
            simp only [List.mem_append] at he
            rcases he with (he | he) | he
            · exact hidle e he
            · exact process_idle_events_trace_states p u inp.events _ e (by rw [hpe]; exact he)
            · exact ih h1 e he
      · rw [if_pos (by simpa using hs)] at he
        simp at he

/-- C9 counterexample: the prerender pass (`main` runs `scene.render()` with a
`DummySlideRenderer` on a freshly constructed scene) produces its final-frame
thumbnail while the scene's `presentation_state` is still `NOT_READY` —
nothing in that path ever leaves `NOT_READY`. -/
theorem c9_counterexample :
    FrameEvent.prerenderFrame PresentationState.NOT_READY
      ∈ (prerender_scene initial_scene).2
    ∧ initial_scene.presentation_state = PresentationState.NOT_READY := by
  constructor
  · simp [prerender_scene, initial_scene]
  · rfl

/-- C9 (amended): in every reachable execution of the interactive slideshow
run, the live frame source never produces a new frame for a scene whose
`presentation_state` is `NOT_READY` (every frame is produced in `ANIMATING` or
`IDLE`); the prerender pass, by contrast, leaves the scene in `NOT_READY`
while the `DummySlideRenderer` produces its thumbnail frames. -/
theorem c9_live_frames_not_ready_free (frame_rate : ℚ)
    (p : List Mobject → List Mobject × List Mobject)
    (u : List Mobject → List Mobject)
    (uDt : ℚ → List Mobject → List Mobject)
    (inputs : List IdleInput) (c : Construct) (h : HostState) :
    ∀ e ∈ host_run frame_rate p u uDt inputs c h,
      e.state ≠ PresentationState.NOT_READY := by
  intro e he
  have hmem : e.state = PresentationState.ANIMATING
      ∨ e.state = PresentationState.IDLE := by
    rw [host_run] at he
    by_cases hr : (animate_to_next_subslide p u
        (start_render c h.active_scene)).ret
    · rw [if_pos hr] at he
      simp only [List.mem_append] at he
      rcases he with he | he
      · exact animate_trace_states p u _ e he
      · exact host_idle_loop_trace_states frame_rate p u uDt inputs _ e he
    · rw [if_neg hr] at he
      exact animate_trace_states p u _ e he
  rcases hmem with hm | hm <;> simp [hm]

/-- C9 witness: a concrete interactive run whose first animation-group frame —
produced in the `ANIMATING` state — is covered by the invariant. -/
theorem c9_witness :
    (FrameEvent.animationFrame PresentationState.ANIMATING).state
      ≠ PresentationState.NOT_READY :=
  c9_live_frames_not_ready_free 60 (fun l => ([], l)) id (fun _ l => l) []
    (Construct.generator [Segment.mk 1 AnimationGroupEndAction.SUBSLIDE] 0)
    (initial_host initial_scene)
    (FrameEvent.animationFrame PresentationState.ANIMATING) (by decide)

/-- C10 witness: on a concrete one-subslide script the call returns `true`,
and the theorem then yields the `IDLE` state on return. -/
theorem c10_witness :
    (animate_to_next_subslide (fun l => ([], l)) id
        (start_render (Construct.generator [Segment.mk 1 AnimationGroupEndAction.SUBSLIDE] 0)
          initial_scene)).scene.presentation_state = PresentationState.IDLE :=
  ((c10_return_value_vs_state (fun l => ([], l)) id
      (start_render (Construct.generator [Segment.mk 1 AnimationGroupEndAction.SUBSLIDE] 0)
        initial_scene)).2.1).mp (by decide)

end Slideshow
